import Mathlib

/-!
Shallow embedding of the Apoapse Very Simple Unit Test framework
(`src/UnitTest.hpp`) and verification of its specification.

Modelling choices:
* A test body (`std::function<void()>` built from the framework's assertion
  surface) is embedded as a `List APAction`: the sequence of `Check` / `Require`
  calls the body performs, plus the possibility of raising an unanticipated
  error condition (a `std::exception` whose `what()` is a string).
* Throwing `APFailException` (the fatal-assertion abort signal) and throwing
  an ordinary `std::exception` are embedded as the explicit `BodyOutcome`
  values `apFail` and `stdExn`; `normal` is a normal return.
* The output stream is embedded as the list of lines written to it
  (`Write` appends a single line; console color decoration never changes
  the text, so it is not part of the model).
-/

/-- Accumulator of failure messages of the currently running test
(struct `TestExec` in the source). -/
structure TestExec where
  errorMsgs : List String
deriving Repr, DecidableEq

/-- One step a test body can perform: the four assertion entry points
(`CHECK`, `CHECK_PRINT`, `REQUIRE`, `REQUIRE_PRINT`) or raising an
unanticipated error condition carrying a description (`what()`). -/
inductive APAction where
  | check (exp : Bool) (code : String)
  | checkPrint (exp : Bool) (code : String) (debugPrint : String)
  | require (exp : Bool) (code : String)
  | requirePrint (exp : Bool) (code : String) (debugPrint : String)
  | throwStdExn (what : String)
deriving Repr, DecidableEq

/-- How a test body finishes: normal return, the fatal-assertion abort
signal `APFailException`, or an ordinary error with description `what`. -/
inductive BodyOutcome where
  | normal
  | apFail
  | stdExn (what : String)
deriving Repr, DecidableEq

/-- Class `UnitTest`: a display name paired with a body. -/
structure UnitTest where
  m_testCode : List APAction
  m_fullName : String
deriving Repr, DecidableEq

/-- Source method `UnitTest::GetFullName`. -/
def UnitTest.GetFullName (t : UnitTest) : String :=
  t.m_fullName

/-- Class `UnitTestsManager`: the registry and the in-flight accumulator. -/
structure UnitTestsManager where
  m_registeredUnitTests : List UnitTest
  m_currentTest : TestExec
deriving Repr, DecidableEq

/-- Source method `UnitTestsManager::RegisterTest`: appends to the registry. -/
def UnitTestsManager.RegisterTest (m : UnitTestsManager) (test : UnitTest) :
    UnitTestsManager :=
  { m with m_registeredUnitTests := m.m_registeredUnitTests ++ [test] }

/-- Source method `UnitTestsManager::Check(bool, const std::string&)`. -/
def UnitTestsManager.Check (m : UnitTestsManager) (exp : Bool) (code : String) :
    UnitTestsManager :=
  if !exp then
    { m with m_currentTest :=
        { errorMsgs := m.m_currentTest.errorMsgs ++ ["CHECK failed on: " ++ code] } }
  else
    m

/-- Source method `UnitTestsManager::Check(bool, const std::string&, const std::string&)`. -/
def UnitTestsManager.CheckPrint (m : UnitTestsManager) (exp : Bool)
    (code : String) (debugPrint : String) : UnitTestsManager :=
  if !exp then
    { m with m_currentTest :=
        { errorMsgs := m.m_currentTest.errorMsgs ++
            ["CHECK failed on: " ++ code ++ "  -  " ++ debugPrint] } }
  else
    m

/-- Source method `UnitTestsManager::Require(bool, const std::string&)`: the returned
`Bool` is `true` exactly when `APFailException` is thrown. -/
def UnitTestsManager.Require (m : UnitTestsManager) (exp : Bool) (code : String) :
    UnitTestsManager × Bool :=
  if !exp then
    ({ m with m_currentTest :=
        { errorMsgs := m.m_currentTest.errorMsgs ++ ["REQUIRE failed on: " ++ code] } },
     true)
  else
    (m, false)

/-- Source method `UnitTestsManager::Require(bool, const std::string&, const std::string&)`. -/
def UnitTestsManager.RequirePrint (m : UnitTestsManager) (exp : Bool)
    (code : String) (debugPrint : String) : UnitTestsManager × Bool :=
  if !exp then
    ({ m with m_currentTest :=
        { errorMsgs := m.m_currentTest.errorMsgs ++
            ["REQUIRE failed on: " ++ code ++ "  -  " ++ debugPrint] } },
     true)
  else
    (m, false)

/-- Executing a test body: the sequence of assertion calls runs against the
manager (each mutating `m_currentTest` exactly as the source methods do);
a failing `Require` raises `APFailException` and a `throwStdExn` raises an
ordinary error, both aborting the remainder of the body. -/
def runBody : List APAction → UnitTestsManager → UnitTestsManager × BodyOutcome
  | [], m => (m, BodyOutcome.normal)
  | APAction.check exp code :: rest, m =>
      runBody rest (m.Check exp code)
  | APAction.checkPrint exp code debugPrint :: rest, m =>
      runBody rest (m.CheckPrint exp code debugPrint)
  | APAction.require exp code :: rest, m =>
      match m.Require exp code with
      | (m1, true) => (m1, BodyOutcome.apFail)
      | (m1, false) => runBody rest m1
  | APAction.requirePrint exp code debugPrint :: rest, m =>
      match m.RequirePrint exp code debugPrint with
      | (m1, true) => (m1, BodyOutcome.apFail)
      | (m1, false) => runBody rest m1
  | APAction.throwStdExn what :: _, m => (m, BodyOutcome.stdExn what)

/-- Source method `UnitTest::Run`: invokes the body; returns `true` on a normal return,
`false` when `APFailException` is caught (leaving `exceptionError`
untouched), and `false` with `exceptionError` set to `e.what()` when an
ordinary `std::exception` is caught. The manager is threaded because the
body mutates its `m_currentTest`. -/
def UnitTest.Run (t : UnitTest) (m : UnitTestsManager) (exceptionError : String) :
    UnitTestsManager × Bool × String :=
  match runBody t.m_testCode m with
  | (m1, BodyOutcome.normal) => (m1, true, exceptionError)
  | (m1, BodyOutcome.apFail) => (m1, false, exceptionError)
  | (m1, BodyOutcome.stdExn what) => (m1, false, what)

/-- Comparator of `UnitTestsManager::SortTests`: `std::sort` is called with
the strict `left.GetFullName() < right.GetFullName()`; the postcondition of
a sort under that strict order is sortedness under the corresponding `≤`,
which is the comparator embedded here. -/
def nameLe (left right : UnitTest) : Bool :=
  decide (left.GetFullName ≤ right.GetFullName)

/-- Source method `UnitTestsManager::SortTests`: sorts the registry by full name ascending. -/
def UnitTestsManager.SortTests (m : UnitTestsManager) : UnitTestsManager :=
  { m with m_registeredUnitTests := m.m_registeredUnitTests.mergeSort nameLe }

/-- The per-test loop of `UnitTestsManager::RunTests` (lines 103–131 of the
source): for each test, reset the accumulator, run the body, classify, emit
the report lines, and bump the counters. Returns the final manager, the
final `successCount` and `errorsCount`, and the emitted lines. -/
def runTestsLoop : List UnitTest → UnitTestsManager → Nat → Nat →
    UnitTestsManager × Nat × Nat × List String
  | [], m, successCount, errorsCount => (m, successCount, errorsCount, [])
  | test :: rest, m, successCount, errorsCount =>
      let exceptionError := ""
      let m1 : UnitTestsManager := { m with m_currentTest := { errorMsgs := [] } }
      match test.Run m1 exceptionError with
      | (m2, testResult, exnErr) =>
        if testResult && m2.m_currentTest.errorMsgs.isEmpty then
          match runTestsLoop rest m2 (successCount + 1) errorsCount with
          | (m3, s, e, out) =>
            (m3, s, e, ("TEST " ++ test.GetFullName ++ " -> SUCCESS") :: out)
        else
          let failLines :=
            ("TEST " ++ test.GetFullName ++ " -> FAILURE") ::
            m2.m_currentTest.errorMsgs.map (fun errorMsg => "\t " ++ errorMsg) ++
            (if !exnErr.isEmpty then ["\t Exception triggered: " ++ exnErr] else [])
          match runTestsLoop rest m2 successCount (errorsCount + 1) with
          | (m3, s, e, out) => (m3, s, e, failLines ++ out)

set_option linter.unusedVariables false in
/-- Source method `UnitTestsManager::RunTests`: header, sorted per-test loop, footer.
`testsPath` is the accepted-but-unused hint parameter; the output stream is
returned as the list of written lines. -/
def UnitTestsManager.RunTests (m : UnitTestsManager) (testsPath : String) :
    UnitTestsManager × List String :=
  let toExecuteTestsCount := m.m_registeredUnitTests.length
  let m1 := m.SortTests
  match runTestsLoop m1.m_registeredUnitTests m1 0 0 with
  | (m2, successCount, errorsCount, out) =>
    (m2,
     ("EXECUTING " ++ toString toExecuteTestsCount ++ " UNIT TESTS...") ::
     out ++
     ["EXECUTED " ++ toString toExecuteTestsCount ++ " UNIT TESTS. " ++
      toString successCount ++ " successful, " ++ toString errorsCount ++ " failed"])

/-- Sanity check: the worked example of the specification (tests `"B"` with
a failing require and `"A"` with a passing check) produces exactly the
documented report. -/
theorem spec_worked_example :
    (UnitTestsManager.RunTests
      { m_registeredUnitTests :=
          [ { m_testCode := [APAction.require false "1==2"], m_fullName := "B" },
            { m_testCode := [APAction.check true "1==1"], m_fullName := "A" } ],
        m_currentTest := { errorMsgs := [] } } "").2 =
    [ "EXECUTING 2 UNIT TESTS...",
      "TEST A -> SUCCESS",
      "TEST B -> FAILURE",
      "\t REQUIRE failed on: 1==2",
      "EXECUTED 2 UNIT TESTS. 1 successful, 1 failed" ] := by
  simp only [UnitTestsManager.RunTests, UnitTestsManager.SortTests]
  simp [List.mergeSort, List.merge, nameLe, UnitTest.GetFullName]
  decide

/-! ## Derived per-test quantities

`runTestsLoop` runs every body against an accumulator reset to empty, and
the body never reads the registry, so each test's contribution to the
report is a function of the test alone. The following definitions capture
that contribution; `runTestsLoop_spec` below proves the loop equal to them. -/

/-- The manager state a body effectively runs against: empty accumulator
(the registry component is irrelevant to `runBody`, see `runBody_split`). -/
def freshManager : UnitTestsManager :=
  { m_registeredUnitTests := [], m_currentTest := { errorMsgs := [] } }

/-- How `test`'s body finishes when run from a reset accumulator. -/
def testOutcome (t : UnitTest) : BodyOutcome :=
  (runBody t.m_testCode freshManager).2

/-- The failure messages `test`'s body accumulates from a reset accumulator. -/
def testMsgs (t : UnitTest) : List String :=
  (runBody t.m_testCode freshManager).1.m_currentTest.errorMsgs

/-- The `exceptionError` string after `UnitTest::Run`: the caught ordinary
error's description, or `""` when none was caught. -/
def exnString (t : UnitTest) : String :=
  match testOutcome t with
  | BodyOutcome.stdExn what => what
  | _ => ""

/-- The loop's success classification: body returned normally AND the
accumulator stayed empty (`testResult && m_currentTest.errorMsgs.empty()`). -/
def testPassed (t : UnitTest) : Bool :=
  (testOutcome t == BodyOutcome.normal) && (testMsgs t).isEmpty

/-- The block of report lines the loop emits for one test. -/
def testReport (t : UnitTest) : List String :=
  if testPassed t then
    ["TEST " ++ t.GetFullName ++ " -> SUCCESS"]
  else
    ("TEST " ++ t.GetFullName ++ " -> FAILURE") ::
    (testMsgs t).map (fun errorMsg => "\t " ++ errorMsg) ++
    (if !(exnString t).isEmpty then ["\t Exception triggered: " ++ exnString t] else [])

/-- The header line of a run over `n` registered tests. -/
def headerLine (n : Nat) : String :=
  "EXECUTING " ++ toString n ++ " UNIT TESTS..."

/-- The footer line of a run: `n` executed, `s` successful, `e` failed. -/
def footerLine (n s e : Nat) : String :=
  "EXECUTED " ++ toString n ++ " UNIT TESTS. " ++ toString s ++ " successful, " ++
    toString e ++ " failed"

/-! ## Structural lemmas -/

/-- A body run touches only `m_currentTest`: the registry passes through
unchanged, and the accumulator evolution and outcome are those of the same
run started on an empty registry. -/
theorem runBody_split (code : List APAction) :
    ∀ (R : List UnitTest) (te : TestExec),
    runBody code { m_registeredUnitTests := R, m_currentTest := te } =
      ({ m_registeredUnitTests := R,
         m_currentTest :=
           (runBody code { m_registeredUnitTests := [], m_currentTest := te }).1.m_currentTest },
       (runBody code { m_registeredUnitTests := [], m_currentTest := te }).2) := by
  induction code with
  | nil => intro R te; rfl
  | cons a rest ih =>
    intro R te
    cases a with
    | check exp code =>
      cases exp <;>
        simp only [runBody, UnitTestsManager.Check, Bool.not_false, Bool.not_true,
          if_true, if_false, ite_true, ite_false] <;> exact ih R _
    | checkPrint exp code debugPrint =>
      cases exp <;>
        simp only [runBody, UnitTestsManager.CheckPrint, Bool.not_false, Bool.not_true,
          if_true, if_false, ite_true, ite_false] <;> exact ih R _
    | require exp code =>
      cases exp <;>
        simp only [runBody, UnitTestsManager.Require, Bool.not_false, Bool.not_true,
          if_true, if_false, ite_true, ite_false]
      exact ih R te
    | requirePrint exp code debugPrint =>
      cases exp <;>
        simp only [runBody, UnitTestsManager.RequirePrint, Bool.not_false, Bool.not_true,
          if_true, if_false, ite_true, ite_false]
      exact ih R te
    | throwStdExn what => rfl

/-- Running a concatenated body: the second part runs only when the first
part returns normally. -/
theorem runBody_append (as bs : List APAction) :
    ∀ (m : UnitTestsManager),
    runBody (as ++ bs) m =
      match runBody as m with
      | (m1, BodyOutcome.normal) => runBody bs m1
      | r => r := by
  induction as with
  | nil => intro m; rfl
  | cons a rest ih =>
    intro m
    cases a with
    | check exp code => simp only [List.cons_append, runBody]; exact ih _
    | checkPrint exp code debugPrint => simp only [List.cons_append, runBody]; exact ih _
    | require exp code =>
      simp only [List.cons_append, runBody]
      cases UnitTestsManager.Require m exp code with
      | mk m1 thrown =>
        cases thrown
        · exact ih m1
        · rfl
    | requirePrint exp code debugPrint =>
      simp only [List.cons_append, runBody]
      cases UnitTestsManager.RequirePrint m exp code debugPrint with
      | mk m1 thrown =>
        cases thrown
        · exact ih m1
        · rfl
    | throwStdExn what => rfl

/-- The loop over any starting accumulator and registry: final counters are
the starting counters plus the number of passed/failed tests, and the
emitted lines are the concatenation of the per-test report blocks. -/
theorem runTestsLoop_spec (tests : List UnitTest) :
    ∀ (R : List UnitTest) (te : TestExec) (s e : Nat),
    (runTestsLoop tests { m_registeredUnitTests := R, m_currentTest := te } s e).2.1 =
        s + tests.countP testPassed ∧
    (runTestsLoop tests { m_registeredUnitTests := R, m_currentTest := te } s e).2.2.1 =
        e + tests.countP (fun t => !testPassed t) ∧
    (runTestsLoop tests { m_registeredUnitTests := R, m_currentTest := te } s e).2.2.2 =
        (tests.map testReport).flatten := by
  induction tests with
  | nil => intro R te s e; simp [runTestsLoop]
  | cons test rest ih =>
    intro R te s e
    rcases hF : runBody test.m_testCode freshManager with ⟨mF, o⟩
    have hsplit := runBody_split test.m_testCode R { errorMsgs := [] }
    rw [show ({ m_registeredUnitTests := [], m_currentTest := { errorMsgs := [] } } :
          UnitTestsManager) = freshManager from rfl, hF] at hsplit
    have hout : testOutcome test = o := by simp [testOutcome, hF]
    have hmsg : testMsgs test = mF.m_currentTest.errorMsgs := by simp [testMsgs, hF]
    cases o with
    | normal =>
      have hexn : exnString test = "" := by simp [exnString, hout]
      by_cases hemp : mF.m_currentTest.errorMsgs.isEmpty = true
      · have hpass : testPassed test = true := by
          simp [testPassed, hout, hmsg, hemp]
        simp only [runTestsLoop, UnitTest.Run, hsplit]
        rcases ih R mF.m_currentTest (s + 1) e with ⟨ih1, ih2, ih3⟩
        simp only [hemp, Bool.and_true, if_true, ite_true]
        rcases hL : runTestsLoop rest
            { m_registeredUnitTests := R, m_currentTest := mF.m_currentTest } (s + 1) e
          with ⟨m3, s3, e3, out3⟩
        rw [hL] at ih1 ih2 ih3
        refine ⟨?_, ?_, ?_⟩
        · simpa [List.countP_cons, hpass, Nat.add_comm, Nat.add_assoc, Nat.add_left_comm]
            using ih1
        · simpa [List.countP_cons, hpass] using ih2
        · simpa [testReport, hpass] using ih3
      · have hpass : testPassed test = false := by
          simp [testPassed, hout, hmsg, hemp]
        simp only [runTestsLoop, UnitTest.Run, hsplit]
        rcases ih R mF.m_currentTest s (e + 1) with ⟨ih1, ih2, ih3⟩
        simp only [hemp, Bool.and_false, if_false, ite_false]
        rcases hL : runTestsLoop rest
            { m_registeredUnitTests := R, m_currentTest := mF.m_currentTest } s (e + 1)
          with ⟨m3, s3, e3, out3⟩
        rw [hL] at ih1 ih2 ih3
        refine ⟨?_, ?_, ?_⟩
        · simpa [List.countP_cons, hpass] using ih1
        · simpa [List.countP_cons, hpass, Nat.add_comm, Nat.add_assoc, Nat.add_left_comm]
            using ih2
        · simpa [testReport, hpass, hmsg, hexn] using ih3
    | apFail =>
      have hexn : exnString test = "" := by simp [exnString, hout]
      have hpass : testPassed test = false := by simp [testPassed, hout]
      simp only [runTestsLoop, UnitTest.Run, hsplit]
      rcases ih R mF.m_currentTest s (e + 1) with ⟨ih1, ih2, ih3⟩
      simp only [Bool.false_and, if_false, ite_false]
      rcases hL : runTestsLoop rest
          { m_registeredUnitTests := R, m_currentTest := mF.m_currentTest } s (e + 1)
        with ⟨m3, s3, e3, out3⟩
      rw [hL] at ih1 ih2 ih3
      refine ⟨?_, ?_, ?_⟩
      · simpa [List.countP_cons, hpass] using ih1
      · simpa [List.countP_cons, hpass, Nat.add_comm, Nat.add_assoc, Nat.add_left_comm]
          using ih2
      · simpa [testReport, hpass, hmsg, hexn] using ih3
    | stdExn what =>
      have hexn : exnString test = what := by simp [exnString, hout]
      have hpass : testPassed test = false := by simp [testPassed, hout]
      simp only [runTestsLoop, UnitTest.Run, hsplit]
      rcases ih R mF.m_currentTest s (e + 1) with ⟨ih1, ih2, ih3⟩
      simp only [Bool.false_and, if_false, ite_false]
      rcases hL : runTestsLoop rest
          { m_registeredUnitTests := R, m_currentTest := mF.m_currentTest } s (e + 1)
        with ⟨m3, s3, e3, out3⟩
      rw [hL] at ih1 ih2 ih3
      refine ⟨?_, ?_, ?_⟩
      · simpa [List.countP_cons, hpass] using ih1
      · simpa [List.countP_cons, hpass, Nat.add_comm, Nat.add_assoc, Nat.add_left_comm]
          using ih2
      · simpa [testReport, hpass, hmsg, hexn] using ih3

/-- Full characterization of the lines `RunTests` writes: header, the
per-test report blocks in sorted order, footer with the pass/fail counts. -/
theorem RunTests_spec (m : UnitTestsManager) (testsPath : String) :
    (m.RunTests testsPath).2 =
      headerLine m.m_registeredUnitTests.length ::
      ((m.m_registeredUnitTests.mergeSort nameLe).map testReport).flatten ++
      [footerLine m.m_registeredUnitTests.length
        ((m.m_registeredUnitTests.mergeSort nameLe).countP testPassed)
        ((m.m_registeredUnitTests.mergeSort nameLe).countP (fun t => !testPassed t))] := by
  cases m with
  | mk reg te =>
    obtain ⟨h1, h2, h3⟩ :=
      runTestsLoop_spec (reg.mergeSort nameLe) (reg.mergeSort nameLe) te 0 0
    simp only [UnitTestsManager.RunTests, UnitTestsManager.SortTests]
    rcases hL : runTestsLoop (reg.mergeSort nameLe)
        { m_registeredUnitTests := reg.mergeSort nameLe, m_currentTest := te } 0 0
      with ⟨m2, sc, ec, out⟩
    rw [hL] at h1 h2 h3
    simp only [Nat.zero_add] at h1 h2 h3
    simp [headerLine, footerLine, h1, h2, h3]

/-- Lemma: `nameLe` is transitive (needed for the sortedness of `mergeSort`). -/
theorem nameLe_trans : ∀ (a b c : UnitTest), nameLe a b → nameLe b c → nameLe a c := by
  intro a b c hab hbc
  simp only [nameLe, decide_eq_true_eq] at hab hbc ⊢
  exact le_trans hab hbc

/-- Lemma: `nameLe` is total. -/
theorem nameLe_total : ∀ (a b : UnitTest), nameLe a b || nameLe b a := by
  intro a b
  simp only [nameLe, Bool.or_eq_true, decide_eq_true_eq]
  exact le_total _ _

/-- The registry after `SortTests` is a permutation of the one before. -/
theorem SortTests_perm (m : UnitTestsManager) :
    (m.SortTests).m_registeredUnitTests.Perm m.m_registeredUnitTests :=
  List.mergeSort_perm m.m_registeredUnitTests nameLe

/-- After `SortTests`, the registry's names are pairwise in ascending
lexicographic order. -/
theorem SortTests_sorted (m : UnitTestsManager) :
    List.Pairwise (fun a b : UnitTest => a.GetFullName ≤ b.GetFullName)
      (m.SortTests).m_registeredUnitTests := by
  have h := List.sorted_mergeSort nameLe_trans nameLe_total m.m_registeredUnitTests
  exact h.imp (by intro a b hab; simpa [nameLe] using hab)

/-- An action that is one of the two soft-check entry points. -/
def APAction.isSoftCheck : APAction → Bool
  | APAction.check _ _ => true
  | APAction.checkPrint _ _ _ => true
  | _ => false

/-- The message a failing soft check appends; `none` for a passing check. -/
def checkFailMsg : APAction → Option String
  | APAction.check false code => some ("CHECK failed on: " ++ code)
  | APAction.checkPrint false code debugPrint =>
      some ("CHECK failed on: " ++ code ++ "  -  " ++ debugPrint)
  | _ => none

/-- A body made only of soft checks returns normally and accumulates exactly
one message per failing check, in order. -/
theorem runBody_soft (code : List APAction) :
    (∀ a ∈ code, a.isSoftCheck = true) →
    ∀ (R : List UnitTest) (te : TestExec),
    runBody code { m_registeredUnitTests := R, m_currentTest := te } =
      ({ m_registeredUnitTests := R,
         m_currentTest := { errorMsgs := te.errorMsgs ++ code.filterMap checkFailMsg } },
       BodyOutcome.normal) := by
  induction code with
  | nil => intro _ R te; simp [runBody]
  | cons a rest ih =>
    intro h R te
    have hrest : ∀ x ∈ rest, x.isSoftCheck = true := fun x hx => h x (by simp [hx])
    cases a with
    | check exp code' =>
      cases exp <;>
        simp [runBody, UnitTestsManager.Check, checkFailMsg, ih hrest,
          List.filterMap_cons]
    | checkPrint exp code' debugPrint =>
      cases exp <;>
        simp [runBody, UnitTestsManager.CheckPrint, checkFailMsg, ih hrest,
          List.filterMap_cons]
    | require exp code' =>
      exact absurd (h (APAction.require exp code') (by simp))
        (by simp [APAction.isSoftCheck])
    | requirePrint exp code' debugPrint =>
      exact absurd (h (APAction.requirePrint exp code' debugPrint) (by simp))
        (by simp [APAction.isSoftCheck])
    | throwStdExn what =>
      exact absurd (h (APAction.throwStdExn what) (by simp))
        (by simp [APAction.isSoftCheck])

/-- C6 as stated is false on the code: the debug-text separator is not
`" - "` (single spaces). At `Check(false, "1==2", "dbg")` the appended
message is `"CHECK failed on: 1==2  -  dbg"`, not `"CHECK failed on: 1==2 - dbg"`. -/
theorem C6_counterexample_single_space_separator :
    ¬ ((UnitTestsManager.CheckPrint
          { m_registeredUnitTests := [], m_currentTest := { errorMsgs := [] } }
          false "1==2" "dbg").m_currentTest.errorMsgs =
        ["CHECK failed on: 1==2 - dbg"]) := by
  decide

/-- C6 (amended): for every failed `Check`/`Require` with a debug text, the
appended message is `"CHECK failed on: <expr>"` (resp. `"REQUIRE failed on:
<expr>"`) suffixed with `"  -  <debugText>"` (two spaces, hyphen, two
spaces); without debug text it is exactly `"CHECK failed on: <expr>"` /
`"REQUIRE failed on: <expr>"`. -/
theorem C6_failure_message_format (m : UnitTestsManager) (code debugPrint : String) :
    (m.Check false code).m_currentTest.errorMsgs =
      m.m_currentTest.errorMsgs ++ ["CHECK failed on: " ++ code] ∧
    (m.CheckPrint false code debugPrint).m_currentTest.errorMsgs =
      m.m_currentTest.errorMsgs ++
        ["CHECK failed on: " ++ code ++ "  -  " ++ debugPrint] ∧
    (m.Require false code).1.m_currentTest.errorMsgs =
      m.m_currentTest.errorMsgs ++ ["REQUIRE failed on: " ++ code] ∧
    (m.RequirePrint false code debugPrint).1.m_currentTest.errorMsgs =
      m.m_currentTest.errorMsgs ++
        ["REQUIRE failed on: " ++ code ++ "  -  " ++ debugPrint] := by
  refine ⟨rfl, rfl, rfl, rfl⟩

/-- C7: the `testsPath` hint has no effect whatsoever on `RunTests`: for any
two hint values the resulting manager state and emitted lines coincide. -/
theorem C7_path_hint_noop (m : UnitTestsManager) (path1 path2 : String) :
    m.RunTests path1 = m.RunTests path2 := rfl

/-- C9: running with an empty registry prints exactly the header with count
0 and the footer `0 successful, 0 failed`, with no per-test lines. -/
theorem C9_empty_registry (m : UnitTestsManager) (testsPath : String)
    (h : m.m_registeredUnitTests = []) :
    (m.RunTests testsPath).2 =
      ["EXECUTING 0 UNIT TESTS...",
       "EXECUTED 0 UNIT TESTS. 0 successful, 0 failed"] := by
  rw [RunTests_spec, h]
  simp only [List.mergeSort_nil, List.map_nil, List.flatten_nil, List.countP_nil,
    List.length_nil, List.nil_append]
  decide

/-- Witness for C9 at the concrete empty manager. -/
theorem C9_empty_registry_witness :
    (UnitTestsManager.RunTests
      { m_registeredUnitTests := [], m_currentTest := { errorMsgs := [] } } "").2 =
      ["EXECUTING 0 UNIT TESTS...",
       "EXECUTED 0 UNIT TESTS. 0 successful, 0 failed"] :=
  C9_empty_registry
    { m_registeredUnitTests := [], m_currentTest := { errorMsgs := [] } } "" rfl

/-- C10: a `Check` or `Require` whose condition is true is a complete no-op:
the manager (registry and accumulator) is returned unchanged and no
`APFailException` is raised. -/
theorem C10_true_assertions_noop (m : UnitTestsManager) (code debugPrint : String) :
    m.Check true code = m ∧
    m.CheckPrint true code debugPrint = m ∧
    m.Require true code = (m, false) ∧
    m.RequirePrint true code debugPrint = (m, false) :=
  ⟨rfl, rfl, rfl, rfl⟩

/-- A registered test's report block appears contiguously in the output. -/
theorem testReport_contiguous (m : UnitTestsManager) (testsPath : String)
    (t : UnitTest) (ht : t ∈ m.m_registeredUnitTests) :
    testReport t <:+: (m.RunTests testsPath).2 := by
  rw [RunTests_spec]
  have h1 : t ∈ m.m_registeredUnitTests.mergeSort nameLe :=
    List.mem_mergeSort.mpr ht
  have h3 : testReport t <:+:
      ((m.m_registeredUnitTests.mergeSort nameLe).map testReport).flatten :=
    List.infix_of_mem_flatten (List.mem_map_of_mem testReport h1)
  obtain ⟨s, t2, hst⟩ := h3
  refine ⟨headerLine m.m_registeredUnitTests.length :: s,
    t2 ++ [footerLine m.m_registeredUnitTests.length
      ((m.m_registeredUnitTests.mergeSort nameLe).countP testPassed)
      ((m.m_registeredUnitTests.mergeSort nameLe).countP (fun u => !testPassed u))], ?_⟩
  rw [← hst]
  simp

/-- C1: a test whose body raises an unanticipated error (with non-empty
description) is reported FAILURE together with an `Exception triggered:`
line carrying the description; the error never escapes `RunTests`: every
registered test still gets its report line and the footer is still the last
line written. -/
theorem C1_unanticipated_error_contained (m : UnitTestsManager) (testsPath : String)
    (t : UnitTest) (what : String)
    (ht : t ∈ m.m_registeredUnitTests)
    (hexn : testOutcome t = BodyOutcome.stdExn what)
    (hne : what ≠ "") :
    ("TEST " ++ t.GetFullName ++ " -> FAILURE") ∈ (m.RunTests testsPath).2 ∧
    ("\t Exception triggered: " ++ what) ∈ (m.RunTests testsPath).2 ∧
    (∀ u ∈ m.m_registeredUnitTests,
      ("TEST " ++ u.GetFullName ++ " -> SUCCESS") ∈ (m.RunTests testsPath).2 ∨
      ("TEST " ++ u.GetFullName ++ " -> FAILURE") ∈ (m.RunTests testsPath).2) ∧
    (m.RunTests testsPath).2.getLast? =
      some (footerLine m.m_registeredUnitTests.length
        ((m.m_registeredUnitTests.mergeSort nameLe).countP testPassed)
        ((m.m_registeredUnitTests.mergeSort nameLe).countP (fun u => !testPassed u))) := by
  have hpass : testPassed t = false := by simp [testPassed, hexn]
  have hes : exnString t = what := by simp [exnString, hexn]
  have hie : what.isEmpty = false := by
    cases hb : what.isEmpty
    · rfl
    · exact absurd ((String.isEmpty_iff what).mp hb) hne
  have hrep : testReport t =
      ("TEST " ++ t.GetFullName ++ " -> FAILURE") ::
      (testMsgs t).map (fun errorMsg => "\t " ++ errorMsg) ++
      ["\t Exception triggered: " ++ what] := by
    simp [testReport, hpass, hes, hie]
  refine ⟨?_, ?_, ?_, ?_⟩
  · exact (testReport_contiguous m testsPath t ht).subset (by rw [hrep]; simp)
  · exact (testReport_contiguous m testsPath t ht).subset (by rw [hrep]; simp)
  · intro u hu
    cases hp : testPassed u
    · right
      exact (testReport_contiguous m testsPath u hu).subset (by simp [testReport, hp])
    · left
      exact (testReport_contiguous m testsPath u hu).subset (by simp [testReport, hp])
  · rw [RunTests_spec]
    exact List.getLast?_concat _

/-- Sample inputs used by the witnesses: a test whose body raises an
ordinary error with description `boom`, a healthy empty test, and a manager
holding both. -/
def sampleExnTest : UnitTest :=
  { m_testCode := [APAction.throwStdExn "boom"], m_fullName := "A" }

/-- A test whose body does nothing (always succeeds). -/
def sampleOkTest : UnitTest :=
  { m_testCode := [], m_fullName := "B" }

/-- A manager with the two sample tests registered. -/
def sampleManager : UnitTestsManager :=
  { m_registeredUnitTests := [sampleExnTest, sampleOkTest],
    m_currentTest := { errorMsgs := [] } }

/-- Witness for C1 at `sampleManager`: the erroring test is reported with
its `Exception triggered:` line, every test is reported, and the footer
closes the run. -/
theorem C1_unanticipated_error_contained_witness :
    ("TEST " ++ sampleExnTest.GetFullName ++ " -> FAILURE") ∈
      (sampleManager.RunTests "").2 ∧
    ("\t Exception triggered: " ++ "boom") ∈ (sampleManager.RunTests "").2 ∧
    (∀ u ∈ sampleManager.m_registeredUnitTests,
      ("TEST " ++ u.GetFullName ++ " -> SUCCESS") ∈ (sampleManager.RunTests "").2 ∨
      ("TEST " ++ u.GetFullName ++ " -> FAILURE") ∈ (sampleManager.RunTests "").2) ∧
    (sampleManager.RunTests "").2.getLast? =
      some (footerLine sampleManager.m_registeredUnitTests.length
        ((sampleManager.m_registeredUnitTests.mergeSort nameLe).countP testPassed)
        ((sampleManager.m_registeredUnitTests.mergeSort nameLe).countP
          (fun u => !testPassed u))) :=
  C1_unanticipated_error_contained sampleManager "" sampleExnTest "boom"
    (by decide) (by decide) (by decide)

/-- C2: for every registry and registration order, the per-test report
blocks appear in ascending lexicographic order of the test names: the
output is exactly header, then the blocks of the sorted registry in order,
then footer, the sorted registry's names are pairwise `≤`, and every block
opens with its test's `TEST <name> -> ...` line. -/
theorem C2_report_order_sorted (m : UnitTestsManager) (testsPath : String) :
    List.Sorted (fun a b : String => a ≤ b)
      ((m.SortTests).m_registeredUnitTests.map UnitTest.GetFullName) ∧
    (m.RunTests testsPath).2 =
      headerLine m.m_registeredUnitTests.length ::
      ((m.SortTests).m_registeredUnitTests.map testReport).flatten ++
      [footerLine m.m_registeredUnitTests.length
        ((m.SortTests).m_registeredUnitTests.countP testPassed)
        ((m.SortTests).m_registeredUnitTests.countP (fun u => !testPassed u))] ∧
    (∀ t : UnitTest, (testReport t).head? =
      some ("TEST " ++ t.GetFullName ++
        (if testPassed t = true then " -> SUCCESS" else " -> FAILURE"))) := by
  refine ⟨?_, ?_, ?_⟩
  · exact List.Pairwise.map UnitTest.GetFullName (fun a b h => h) (SortTests_sorted m)
  · rw [RunTests_spec]
    rfl
  · intro t
    cases hp : testPassed t <;> simp [testReport, hp]

/-- C3: a test is classified SUCCESS exactly when its body returns normally
AND the accumulator is empty afterwards; a normal return with recorded
soft-check failures is reported FAILURE with one line per message; a body
of only soft checks returns normally and records one message per failing
check; and the test's block appears contiguously in the output. -/
theorem C3_success_classification (m : UnitTestsManager) (testsPath : String)
    (t : UnitTest) (ht : t ∈ m.m_registeredUnitTests) :
    (testPassed t = true ↔
      (testOutcome t = BodyOutcome.normal ∧ testMsgs t = [])) ∧
    (testOutcome t = BodyOutcome.normal → testMsgs t ≠ [] →
      testReport t =
        ("TEST " ++ t.GetFullName ++ " -> FAILURE") ::
        (testMsgs t).map (fun errorMsg => "\t " ++ errorMsg)) ∧
    ((∀ a ∈ t.m_testCode, a.isSoftCheck = true) →
      testOutcome t = BodyOutcome.normal ∧
      testMsgs t = t.m_testCode.filterMap checkFailMsg) ∧
    testReport t <:+: (m.RunTests testsPath).2 := by
  refine ⟨?_, ?_, ?_, testReport_contiguous m testsPath t ht⟩
  · simp [testPassed, List.isEmpty_iff]
  · intro h1 h2
    have hpass : testPassed t = false := by
      simp [testPassed, List.isEmpty_iff, h2]
    have hes : exnString t = "" := by simp [exnString, h1]
    simp [testReport, hpass, hes, String.isEmpty_iff]
  · intro h
    have hrun := runBody_soft t.m_testCode h [] { errorMsgs := [] }
    constructor
    · simp [testOutcome, freshManager, hrun]
    · simp [testMsgs, freshManager, hrun]

/-- Witness for C3 at a concrete test with two failing soft checks. -/
theorem C3_success_classification_witness :
    (testPassed { m_testCode := [APAction.check false "a", APAction.check false "b"],
                  m_fullName := "T" } = true ↔
      (testOutcome { m_testCode := [APAction.check false "a", APAction.check false "b"],
                     m_fullName := "T" } = BodyOutcome.normal ∧
       testMsgs { m_testCode := [APAction.check false "a", APAction.check false "b"],
                  m_fullName := "T" } = [])) ∧
    (testOutcome { m_testCode := [APAction.check false "a", APAction.check false "b"],
                   m_fullName := "T" } = BodyOutcome.normal →
     testMsgs { m_testCode := [APAction.check false "a", APAction.check false "b"],
                m_fullName := "T" } ≠ [] →
     testReport { m_testCode := [APAction.check false "a", APAction.check false "b"],
                  m_fullName := "T" } =
       ("TEST " ++ UnitTest.GetFullName
           { m_testCode := [APAction.check false "a", APAction.check false "b"],
             m_fullName := "T" } ++ " -> FAILURE") ::
       (testMsgs { m_testCode := [APAction.check false "a", APAction.check false "b"],
                   m_fullName := "T" }).map (fun errorMsg => "\t " ++ errorMsg)) ∧
    ((∀ a ∈ ({ m_testCode := [APAction.check false "a", APAction.check false "b"],
               m_fullName := "T" } : UnitTest).m_testCode, a.isSoftCheck = true) →
     testOutcome { m_testCode := [APAction.check false "a", APAction.check false "b"],
                   m_fullName := "T" } = BodyOutcome.normal ∧
     testMsgs { m_testCode := [APAction.check false "a", APAction.check false "b"],
                m_fullName := "T" } =
       ({ m_testCode := [APAction.check false "a", APAction.check false "b"],
          m_fullName := "T" } : UnitTest).m_testCode.filterMap checkFailMsg) ∧
    testReport { m_testCode := [APAction.check false "a", APAction.check false "b"],
                 m_fullName := "T" } <:+:
      (UnitTestsManager.RunTests
        { m_registeredUnitTests :=
            [{ m_testCode := [APAction.check false "a", APAction.check false "b"],
               m_fullName := "T" }],
          m_currentTest := { errorMsgs := [] } } "").2 :=
  C3_success_classification
    { m_registeredUnitTests :=
        [{ m_testCode := [APAction.check false "a", APAction.check false "b"],
           m_fullName := "T" }],
      m_currentTest := { errorMsgs := [] } } ""
    { m_testCode := [APAction.check false "a", APAction.check false "b"],
      m_fullName := "T" }
    (by decide)

/-- C4: a test whose body is a cleanly-running prefix (no messages, normal
return) followed by a failing `Require` and then anything at all reports
FAILURE with exactly the require's message; nothing after the require
executes, whatever `rest` contains, and the block appears contiguously in
the output. -/
theorem C4_require_aborts_remainder (m : UnitTestsManager) (testsPath : String)
    (code : String) (pre rest : List APAction) (t : UnitTest)
    (hcode : t.m_testCode = pre ++ APAction.require false code :: rest)
    (hpre : runBody pre freshManager = (freshManager, BodyOutcome.normal))
    (hmem : t ∈ m.m_registeredUnitTests) :
    testOutcome t = BodyOutcome.apFail ∧
    testMsgs t = ["REQUIRE failed on: " ++ code] ∧
    testReport t =
      ["TEST " ++ t.GetFullName ++ " -> FAILURE",
       "\t " ++ ("REQUIRE failed on: " ++ code)] ∧
    testReport t <:+: (m.RunTests testsPath).2 := by
  have hbody : runBody t.m_testCode freshManager =
      ({ m_registeredUnitTests := [],
         m_currentTest := { errorMsgs := ["REQUIRE failed on: " ++ code] } },
       BodyOutcome.apFail) := by
    rw [hcode, runBody_append, hpre]
    simp [runBody, UnitTestsManager.Require, freshManager]
  have hout : testOutcome t = BodyOutcome.apFail := by simp [testOutcome, hbody]
  have hmsg : testMsgs t = ["REQUIRE failed on: " ++ code] := by simp [testMsgs, hbody]
  have hpass : testPassed t = false := by simp [testPassed, hout]
  have hes : exnString t = "" := by simp [exnString, hout]
  refine ⟨hout, hmsg, ?_, testReport_contiguous m testsPath t hmem⟩
  simp [testReport, hpass, hmsg, hes, String.isEmpty_iff]

/-- The concrete test used by the C4 witness: body
`check(true); require(false); check(false)`. -/
def sampleRequireTest : UnitTest :=
  { m_testCode := [APAction.check true "p", APAction.require false "1==2",
                   APAction.check false "q"],
    m_fullName := "R" }

/-- Witness for C4: in `sampleRequireTest` the trailing failing check never
runs and only the require's message is reported. -/
theorem C4_require_aborts_remainder_witness :
    testOutcome sampleRequireTest = BodyOutcome.apFail ∧
    testMsgs sampleRequireTest = ["REQUIRE failed on: " ++ "1==2"] ∧
    testReport sampleRequireTest =
      ["TEST " ++ sampleRequireTest.GetFullName ++ " -> FAILURE",
       "\t " ++ ("REQUIRE failed on: " ++ "1==2")] ∧
    testReport sampleRequireTest <:+:
      (UnitTestsManager.RunTests
        { m_registeredUnitTests := [sampleRequireTest],
          m_currentTest := { errorMsgs := [] } } "").2 :=
  C4_require_aborts_remainder
    { m_registeredUnitTests := [sampleRequireTest],
      m_currentTest := { errorMsgs := [] } } ""
    "1==2" [APAction.check true "p"] [APAction.check false "q"] sampleRequireTest
    (by decide) (by decide) (by decide)

/-- C5: a body aborted by the fatal-assertion signal makes `Run` return
not-passed with `exceptionError` still empty, so no `Exception triggered:`
line is emitted for it — its block is exactly the FAILURE line plus the
accumulated messages (which already include the REQUIRE message). -/
theorem C5_fatal_abort_not_double_reported (t : UnitTest) (R : List UnitTest)
    (h : testOutcome t = BodyOutcome.apFail) :
    (t.Run { m_registeredUnitTests := R, m_currentTest := { errorMsgs := [] } } "").2 =
      (false, "") ∧
    exnString t = "" ∧
    testReport t =
      ("TEST " ++ t.GetFullName ++ " -> FAILURE") ::
      (testMsgs t).map (fun errorMsg => "\t " ++ errorMsg) := by
  rcases hF : runBody t.m_testCode freshManager with ⟨mF, o⟩
  have ho : o = BodyOutcome.apFail := by
    have := h
    rw [testOutcome, hF] at this
    exact this
  subst ho
  have hsplit := runBody_split t.m_testCode R { errorMsgs := [] }
  rw [show ({ m_registeredUnitTests := [], m_currentTest := { errorMsgs := [] } } :
        UnitTestsManager) = freshManager from rfl, hF] at hsplit
  have hpass : testPassed t = false := by simp [testPassed, h]
  have hes : exnString t = "" := by simp [exnString, h]
  refine ⟨?_, hes, ?_⟩
  · rw [UnitTest.Run, hsplit]
  · simp [testReport, hpass, hes, String.isEmpty_iff]

/-- Witness for C5 at a test whose body is a single failing require. -/
theorem C5_fatal_abort_not_double_reported_witness :
    (UnitTest.Run { m_testCode := [APAction.require false "x"], m_fullName := "T" }
        { m_registeredUnitTests := [], m_currentTest := { errorMsgs := [] } } "").2 =
      (false, "") ∧
    exnString { m_testCode := [APAction.require false "x"], m_fullName := "T" } = "" ∧
    testReport { m_testCode := [APAction.require false "x"], m_fullName := "T" } =
      ("TEST " ++ UnitTest.GetFullName
          { m_testCode := [APAction.require false "x"], m_fullName := "T" } ++
        " -> FAILURE") ::
      (testMsgs { m_testCode := [APAction.require false "x"], m_fullName := "T" }).map
        (fun errorMsg => "\t " ++ errorMsg) :=
  C5_fatal_abort_not_double_reported
    { m_testCode := [APAction.require false "x"], m_fullName := "T" } []
    (by decide)

/-- C8: the pre-run content of the accumulator can never leak into the
report: two managers with the same registry produce identical output
whatever their accumulators hold, and that output decomposes into per-test
blocks each determined by its own test's body run from an empty
accumulator. -/
theorem C8_accumulator_reset_per_test (m1 m2 : UnitTestsManager) (testsPath : String)
    (hreg : m1.m_registeredUnitTests = m2.m_registeredUnitTests) :
    (m1.RunTests testsPath).2 = (m2.RunTests testsPath).2 ∧
    (m1.RunTests testsPath).2 =
      headerLine m1.m_registeredUnitTests.length ::
      ((m1.m_registeredUnitTests.mergeSort nameLe).map testReport).flatten ++
      [footerLine m1.m_registeredUnitTests.length
        ((m1.m_registeredUnitTests.mergeSort nameLe).countP testPassed)
        ((m1.m_registeredUnitTests.mergeSort nameLe).countP (fun u => !testPassed u))] := by
  refine ⟨?_, RunTests_spec m1 testsPath⟩
  rw [RunTests_spec, RunTests_spec, hreg]

/-- Witness for C8: a manager with a stale accumulator and a clean one
produce the same report. -/
theorem C8_accumulator_reset_per_test_witness :
    (UnitTestsManager.RunTests
      { m_registeredUnitTests := [sampleOkTest],
        m_currentTest := { errorMsgs := ["stale message"] } } "").2 =
    (UnitTestsManager.RunTests
      { m_registeredUnitTests := [sampleOkTest],
        m_currentTest := { errorMsgs := [] } } "").2 ∧
    (UnitTestsManager.RunTests
      { m_registeredUnitTests := [sampleOkTest],
        m_currentTest := { errorMsgs := ["stale message"] } } "").2 =
      headerLine [sampleOkTest].length ::
      (([sampleOkTest].mergeSort nameLe).map testReport).flatten ++
      [footerLine [sampleOkTest].length
        (([sampleOkTest].mergeSort nameLe).countP testPassed)
        (([sampleOkTest].mergeSort nameLe).countP (fun u => !testPassed u))] :=
  C8_accumulator_reset_per_test
    { m_registeredUnitTests := [sampleOkTest],
      m_currentTest := { errorMsgs := ["stale message"] } }
    { m_registeredUnitTests := [sampleOkTest],
      m_currentTest := { errorMsgs := [] } } "" rfl

/-- C1 as universally stated is false on the code: an unanticipated error
whose description is empty is reported FAILURE but with no `Exception
triggered:` line at all — the loop only prints that line when
`exceptionError` is non-empty. Concrete input: a single registered test
whose body raises an ordinary error with `what() = ""`. -/
theorem C1_counterexample_empty_description :
    testOutcome { m_testCode := [APAction.throwStdExn ""], m_fullName := "E" } =
      BodyOutcome.stdExn "" ∧
    ("TEST " ++ "E" ++ " -> FAILURE") ∈
      (UnitTestsManager.RunTests
        { m_registeredUnitTests := [{ m_testCode := [APAction.throwStdExn ""],
                                      m_fullName := "E" }],
          m_currentTest := { errorMsgs := [] } } "").2 ∧
    ¬ (("\t Exception triggered: " ++ "") ∈
        (UnitTestsManager.RunTests
          { m_registeredUnitTests := [{ m_testCode := [APAction.throwStdExn ""],
                                        m_fullName := "E" }],
            m_currentTest := { errorMsgs := [] } } "").2) := by
  refine ⟨by decide, ?_, ?_⟩ <;>
  · simp only [UnitTestsManager.RunTests, UnitTestsManager.SortTests,
      List.mergeSort_singleton]
    decide
